import Mathlib

/-!
Verification of the poll data model in `polls/models.py`.

The source file declares two Django model classes, `Question` and `Choice`,
with their field constraints (`max_length=200`, a required `pub_date`
timestamp, a non-null `ForeignKey` with `on_delete=CASCADE`, and a
`PositiveIntegerField` vote counter defaulting to 0), plus two derived
behaviors: `__str__` and `was_published_recently`.

Timestamps are modelled as integers counting seconds (Python `datetime`
values are totally ordered and `timedelta(days=1)` is 86400 seconds of
elapsed time, independent of calendars and timezones). The persistence
operations (create / lookup / cascading delete / vote increment) are the
Django ORM plus database layer, which is not part of this repository;
those are modelled from the spec, on top of the field declarations that
are in the source.
-/

namespace Polls

/-- A persisted `Question` row: `id`, `question_text` (CharField,
max_length 200), `pub_date` (DateTimeField, required).  From
`polls/models.py`, class `Question`. -/
structure Question where
  id : Nat
  question_text : String
  pub_date : Int
deriving Repr, DecidableEq

/-- A persisted `Choice` row: `id`, `question` foreign key (stored as the
owning question's id, non-null), `choice_text` (CharField, max_length
200), `votes` (PositiveIntegerField, default 0).  From `polls/models.py`,
class `Choice`. -/
structure Choice where
  id : Nat
  question_id : Nat
  choice_text : String
  votes : Int
deriving Repr, DecidableEq

/-- `datetime.timedelta(days=d)` as a number of seconds. -/
def timedeltaDays (d : Int) : Int := d * 86400

/-- `Question.__str__`: `return self.question_text`. -/
def Question.toDisplayString (q : Question) : String := q.question_text

/-- `Choice.__str__`: `return self.choice_text`. -/
def Choice.toDisplayString (c : Choice) : String := c.choice_text

/-- `Question.was_published_recently`:
`return self.pub_date >= timezone.now() - datetime.timedelta(days=1)`.
The implicit clock read `timezone.now()` is passed in as the explicit
argument `now`. -/
def Question.wasPublishedRecently (q : Question) (now : Int) : Bool :=
  q.pub_date ≥ now - timedeltaDays 1

/-- Errors surfaced by the storage layer. -/
inductive DBError where
  | ConstraintViolation
  | NotFound
deriving Repr, DecidableEq

/-- The persisted state: the two entity tables plus the id sequences the
storage layer uses to assign fresh primary keys. -/
structure DB where
  questions : List Question
  choices : List Choice
  nextQuestionId : Nat
  nextChoiceId : Nat
deriving Repr, DecidableEq

/-- The empty database. -/
def DB.empty : DB := ⟨[], [], 0, 0⟩

/-- Modelled from the spec: `create(question_text, pub_date) -> Question`
(the Django ORM `save` path is not in the repository).  Persists a new
Question; fails with a `ConstraintViolation`-class error if
`question_text` exceeds 200 characters or `pub_date` is missing. -/
def DB.createQuestion (db : DB) (text : String) (pub : Option Int) :
    Except DBError (DB × Question) :=
  if text.length > 200 then .error .ConstraintViolation
  else
    match pub with
    | none => .error .ConstraintViolation
    | some p =>
      let q : Question := ⟨db.nextQuestionId, text, p⟩
      .ok ({ db with questions := db.questions ++ [q],
                     nextQuestionId := db.nextQuestionId + 1 }, q)

/-- Modelled from the spec: `create_choice(question, choice_text,
votes=0) -> Choice` (the Django ORM `save` path is not in the
repository).  Persists a new Choice bound to an existing Question; fails
with a `ConstraintViolation`-class error if the referenced Question does
not exist, if `choice_text` exceeds 200 characters, or if the vote
counter would violate the `PositiveIntegerField` check `votes >= 0`.
`votes` defaults to 0 when not supplied. -/
def DB.createChoice (db : DB) (qid : Nat) (text : String)
    (votes : Option Int := none) : Except DBError (DB × Choice) :=
  if ¬ db.questions.any (fun q => q.id = qid) then .error .ConstraintViolation
  else if text.length > 200 then .error .ConstraintViolation
  else if votes.getD 0 < 0 then .error .ConstraintViolation
  else
    let c : Choice := ⟨db.nextChoiceId, qid, text, votes.getD 0⟩
    .ok ({ db with choices := db.choices ++ [c],
                   nextChoiceId := db.nextChoiceId + 1 }, c)

/-- Modelled from the spec: lookup of a Question by primary identifier
(the generic read interface is not in the repository). -/
def DB.getQuestion (db : DB) (qid : Nat) : Option Question :=
  db.questions.find? (fun q => q.id = qid)

/-- Modelled from the spec: lookup of all Choices referencing a given
Question (relationship traversal is not in the repository). -/
def DB.getChoicesFor (db : DB) (qid : Nat) : List Choice :=
  db.choices.filter (fun c => c.question_id = qid)

/-- Modelled from the spec: `delete(question)` with the cascade rule
declared by `on_delete=models.CASCADE` in `polls/models.py` (the delete
machinery itself is not in the repository).  One atomic step removes the
Question and every Choice referencing it. -/
def DB.deleteQuestion (db : DB) (qid : Nat) : DB :=
  { db with questions := db.questions.filter (fun q => ¬ q.id = qid),
            choices := db.choices.filter (fun c => ¬ c.question_id = qid) }

/-- Modelled from the spec: the vote increment performed by an external
caller (a voting endpoint, out of scope of the repository). -/
def DB.vote (db : DB) (cid : Nat) : DB :=
  { db with
    choices := db.choices.map fun c =>
      if c.id = cid then { c with votes := c.votes + 1 } else c }

/-- Every Choice row satisfies the `PositiveIntegerField` invariant
`votes >= 0`. -/
def DB.votesInv (db : DB) : Prop :=
  ∀ c ∈ db.choices, 0 ≤ c.votes

instance (db : DB) : Decidable db.votesInv :=
  inferInstanceAs (Decidable (∀ c ∈ db.choices, 0 ≤ c.votes))

/-- All stored Question ids are below the id sequence counter, so a
freshly assigned id is not already in use. -/
def DB.questionIdsFresh (db : DB) : Prop :=
  ∀ q ∈ db.questions, q.id < db.nextQuestionId

instance (db : DB) : Decidable db.questionIdsFresh :=
  inferInstanceAs (Decidable (∀ q ∈ db.questions, q.id < db.nextQuestionId))

/-- C1: for every Question `q` and every timestamp `now`,
`was_published_recently(q, now)` returns true if and only if
`q.pub_date >= now - 1 day`. -/
theorem wasPublishedRecently_iff (q : Question) (now : Int) :
    q.wasPublishedRecently now = true ↔ q.pub_date ≥ now - timedeltaDays 1 := by
  simp [Question.wasPublishedRecently]

/-- C3: `was_published_recently` returns true when `pub_date` equals
`now - 1 day` exactly (the lower bound is inclusive), and false when
`pub_date` equals `now - 1 day - 1 second`. -/
theorem wasPublishedRecently_boundary (q : Question) (now : Int) :
    (q.pub_date = now - timedeltaDays 1 → q.wasPublishedRecently now = true) ∧
    (q.pub_date = now - timedeltaDays 1 - 1 → q.wasPublishedRecently now = false) := by
  constructor <;> intro h <;>
    simp only [Question.wasPublishedRecently, timedeltaDays, h] <;>
    simp

/-- Witness for C3 at `now = 0`: a Question published exactly 86400
seconds earlier is recent, one published 86401 seconds earlier is not. -/
theorem wasPublishedRecently_boundary_witness :
    Question.wasPublishedRecently ⟨1, "q1", -86400⟩ 0 = true ∧
    Question.wasPublishedRecently ⟨2, "q2", -86401⟩ 0 = false :=
  ⟨(wasPublishedRecently_boundary ⟨1, "q1", -86400⟩ 0).1 (by decide),
   (wasPublishedRecently_boundary ⟨2, "q2", -86401⟩ 0).2 (by decide)⟩

/-- C4: a Question whose `pub_date` lies strictly in the future relative
to `now` is reported as recently published; the predicate has no guard
against future publication dates. -/
theorem wasPublishedRecently_future (q : Question) (now : Int)
    (h : now < q.pub_date) : q.wasPublishedRecently now = true := by
  simp only [Question.wasPublishedRecently, timedeltaDays]
  simp
  omega

/-- Witness for C4: `pub_date = now + 1 hour` (3600 seconds) returns
true. -/
theorem wasPublishedRecently_future_witness :
    Question.wasPublishedRecently ⟨3, "q3", 3600⟩ 0 = true :=
  wasPublishedRecently_future ⟨3, "q3", 3600⟩ 0 (by decide)

/-- C5: `to_display_string` returns `question_text` (resp.
`choice_text`) verbatim, and two successive calls return the same
string.  The operations are pure Lean functions, so they mutate no
state by construction. -/
theorem toDisplayString_verbatim (q : Question) (c : Choice) :
    q.toDisplayString = q.question_text ∧
    c.toDisplayString = c.choice_text ∧
    q.toDisplayString = q.toDisplayString ∧
    c.toDisplayString = c.toDisplayString :=
  ⟨rfl, rfl, rfl, rfl⟩

/-- C2: deleting a Question in the single atomic step `deleteQuestion`
leaves the Question unretrievable and leaves no Choice referencing it
retrievable; intermediate states cannot be observed because the cascade
is one state transition. -/
theorem deleteQuestion_cascade (db : DB) (qid : Nat) :
    (db.deleteQuestion qid).getQuestion qid = none ∧
    (db.deleteQuestion qid).getChoicesFor qid = [] := by
  constructor
  · rw [DB.getQuestion, List.find?_eq_none]
    intro q hq
    simp only [DB.deleteQuestion, List.mem_filter] at hq
    simpa using hq.2
  · simp only [DB.getChoicesFor, DB.deleteQuestion, List.filter_filter]
    apply List.filter_eq_nil_iff.mpr
    intro c _
    simp

/-- C9: the recency window is exactly 86400 seconds of elapsed time
(`timedelta(days=1)`): the predicate holds precisely while
`now - pub_date` is at most 86400 seconds, and fails precisely once it
exceeds 86400 seconds. -/
theorem recency_window_86400 (q : Question) (now : Int) :
    (q.wasPublishedRecently now = true ↔ now - q.pub_date ≤ 86400) ∧
    (q.wasPublishedRecently now = false ↔ now - q.pub_date > 86400) ∧
    timedeltaDays 1 = 86400 := by
  refine ⟨?_, ?_, by decide⟩ <;>
    simp only [Question.wasPublishedRecently, timedeltaDays] <;>
    simp <;> omega

/-- C10: the result of `was_published_recently` depends only on
`pub_date` and `now`: two Questions with equal `pub_date` evaluated at
the same instant agree, whatever their `id`, `question_text` or
associated Choices; as a pure function it mutates neither Question. -/
theorem wasPublishedRecently_depends_only_on_pub_date
    (q₁ q₂ : Question) (now : Int) (h : q₁.pub_date = q₂.pub_date) :
    q₁.wasPublishedRecently now = q₂.wasPublishedRecently now := by
  simp [Question.wasPublishedRecently, h]

/-- Witness for C10: two Questions differing in `id` and
`question_text` but sharing `pub_date = 5` agree at `now = 0`. -/
theorem wasPublishedRecently_depends_only_on_pub_date_witness :
    Question.wasPublishedRecently ⟨1, "a", 5⟩ 0 =
      Question.wasPublishedRecently ⟨2, "b", 5⟩ 0 :=
  wasPublishedRecently_depends_only_on_pub_date ⟨1, "a", 5⟩ ⟨2, "b", 5⟩ 0 rfl

/-- C6: `create` fails with a `ConstraintViolation`-class error exactly
when `question_text` exceeds 200 characters or `pub_date` is missing;
`create_choice` (with the default vote count) fails with a
`ConstraintViolation`-class error exactly when the referenced Question
does not exist or `choice_text` exceeds 200 characters; otherwise each
creation succeeds and persists the entity. -/
theorem create_constraint_violation_iff (db : DB) (text ctext : String)
    (pub : Option Int) (qid : Nat) :
    (db.createQuestion text pub = .error .ConstraintViolation ↔
      (text.length > 200 ∨ pub = none)) ∧
    (db.createChoice qid ctext none = .error .ConstraintViolation ↔
      ((¬ ∃ q ∈ db.questions, q.id = qid) ∨ ctext.length > 200)) ∧
    (∀ dbq q, db.createQuestion text pub = .ok (dbq, q) → q ∈ dbq.questions) ∧
    (∀ dbc c, db.createChoice qid ctext none = .ok (dbc, c) → c ∈ dbc.choices) := by
  refine ⟨?_, ?_, ?_, ?_⟩
  · simp only [DB.createQuestion]
    split
    · simp; omega
    · split
      · simp
      · simp; omega
  · simp only [DB.createChoice]
    split
    · rename_i hq
      simp only [List.any_eq_true, decide_eq_true_eq] at hq
      simp only [hq]
      simp
    · rename_i hq
      simp only [List.any_eq_true, decide_eq_true_eq, not_not] at hq
      split
      · simp only [hq]
        rename_i hl
        simp
        omega
      · rename_i hl
        split
        · simp at *
        · simp only [hq]
          simp
          omega
  · simp only [DB.createQuestion]
    split
    · simp
    · split
      · simp
      · intro dbq q h
        simp only [Except.ok.injEq, Prod.mk.injEq] at h
        obtain ⟨hdb, hq⟩ := h
        subst hdb
        simp [← hq]
  · simp only [DB.createChoice]
    split
    · simp
    · split
      · simp
      · split
        · simp
        · intro dbc c h
          simp only [Except.ok.injEq, Prod.mk.injEq] at h
          obtain ⟨hdb, hc⟩ := h
          subst hdb
          simp [← hc]

/-- Witness for C6: starting from the empty database, creating the
Question "q" succeeds and persists it, and creating the Choice "c" on
that Question succeeds and persists it. -/
theorem create_constraint_violation_iff_witness :
    (⟨0, "q", 0⟩ : Question) ∈ (DB.mk [⟨0, "q", 0⟩] [] 1 0).questions ∧
    (⟨0, 0, "c", 0⟩ : Choice) ∈
      (DB.mk [⟨0, "q", 0⟩] [⟨0, 0, "c", 0⟩] 1 1).choices :=
  ⟨(create_constraint_violation_iff DB.empty "q" "c" (some 0) 0).2.2.1
      (DB.mk [⟨0, "q", 0⟩] [] 1 0) ⟨0, "q", 0⟩ (by rfl),
   (create_constraint_violation_iff (DB.mk [⟨0, "q", 0⟩] [] 1 0) "q" "c"
        (some 0) 0).2.2.2
      (DB.mk [⟨0, "q", 0⟩] [⟨0, 0, "c", 0⟩] 1 1) ⟨0, 0, "c", 0⟩ (by rfl)⟩

/-- C7: `votes >= 0` always.  A Choice created without an explicit vote
count has `votes = 0`, and every operation of the model (question
creation, choice creation, cascading delete, vote increment) preserves
the invariant that all stored Choices have non-negative votes. -/
theorem votes_nonneg_invariant (db : DB) (h : db.votesInv) :
    (∀ qid text dbc c, db.createChoice qid text none = .ok (dbc, c) →
      c.votes = 0) ∧
    (∀ qid text v dbc c, db.createChoice qid text v = .ok (dbc, c) →
      dbc.votesInv) ∧
    (∀ text pub dbq q, db.createQuestion text pub = .ok (dbq, q) →
      dbq.votesInv) ∧
    (∀ qid, (db.deleteQuestion qid).votesInv) ∧
    (∀ cid, (db.vote cid).votesInv) := by
  refine ⟨?_, ?_, ?_, ?_, ?_⟩
  · intro qid text dbc c hc
    simp only [DB.createChoice] at hc
    split at hc
    · exact absurd hc (by simp)
    · split at hc
      · exact absurd hc (by simp)
      · split at hc
        · exact absurd hc (by simp)
        · simp only [Except.ok.injEq, Prod.mk.injEq] at hc
          simp [← hc.2]
  · intro qid text v dbc c hc
    simp only [DB.createChoice] at hc
    split at hc
    · exact absurd hc (by simp)
    · split at hc
      · exact absurd hc (by simp)
      · split at hc
        · exact absurd hc (by simp)
        · rename_i hv
          push_neg at hv
          simp only [Except.ok.injEq, Prod.mk.injEq] at hc
          obtain ⟨hdb, _⟩ := hc
          subst hdb
          intro x hx
          simp only [List.mem_append, List.mem_singleton] at hx
          rcases hx with hx | hx
          · exact h x hx
          · subst hx
            exact hv
  · intro text pub dbq q hq
    simp only [DB.createQuestion] at hq
    split at hq
    · exact absurd hq (by simp)
    · split at hq
      · exact absurd hq (by simp)
      · simp only [Except.ok.injEq, Prod.mk.injEq] at hq
        obtain ⟨hdb, _⟩ := hq
        subst hdb
        exact h
  · intro qid x hx
    simp only [DB.deleteQuestion, List.mem_filter] at hx
    exact h x hx.1
  · intro cid x hx
    simp only [DB.vote, List.mem_map] at hx
    obtain ⟨c, hc, hcx⟩ := hx
    have hcv := h c hc
    subst hcx
    split <;> simp <;> omega

/-- Witness for C7: on a database holding one Choice with 2 votes, the
invariant holds and is preserved by a vote increment. -/
theorem votes_nonneg_invariant_witness :
    ((DB.mk [⟨0, "q", 0⟩] [⟨0, 0, "c", 2⟩] 1 1).vote 0).votesInv :=
  (votes_nonneg_invariant (DB.mk [⟨0, "q", 0⟩] [⟨0, 0, "c", 2⟩] 1 1)
      (by decide)).2.2.2.2 0

/-- C8: for valid inputs, `create` followed by lookup of the returned
Question by its id yields that very Question, whose `question_text` and
`pub_date` are identical to the inputs.  The freshness hypothesis
states that the storage layer's id sequence has not been corrupted, so
the newly assigned id is unused. -/
theorem create_lookup_roundtrip (db : DB) (text : String) (pub : Int)
    (hfresh : db.questionIdsFresh) (hlen : text.length ≤ 200)
    (dbq : DB) (q : Question)
    (h : db.createQuestion text (some pub) = .ok (dbq, q)) :
    dbq.getQuestion q.id = some q ∧
    q.question_text = text ∧ q.pub_date = pub := by
  simp only [DB.createQuestion] at h
  split at h
  · omega
  · simp only [Except.ok.injEq, Prod.mk.injEq] at h
    obtain ⟨hdb, hq⟩ := h
    subst hdb
    refine ⟨?_, by simp [← hq], by simp [← hq]⟩
    rw [DB.getQuestion]
    simp only [List.find?_append]
    have hnone : db.questions.find? (fun x => x.id = q.id) = none := by
      rw [List.find?_eq_none]
      intro x hx
      have := hfresh x hx
      simp only [← hq, decide_eq_true_eq]
      omega
    rw [hnone]
    simp [← hq]

/-- Witness for C8: creating "q" with `pub_date = 0` in the empty
database and looking up id 0 returns the created Question. -/
theorem create_lookup_roundtrip_witness :
    (DB.mk [⟨0, "q", 0⟩] [] 1 0).getQuestion 0 = some ⟨0, "q", 0⟩ ∧
    ("q" : String) = "q" ∧ (0 : Int) = 0 := by
  have := create_lookup_roundtrip DB.empty "q" 0 (by decide) (by decide)
      (DB.mk [⟨0, "q", 0⟩] [] 1 0) ⟨0, "q", 0⟩ (by rfl)
  exact this

end Polls
